import Mathlib

/-!
Shallow embedding of the library catalog service (GraphQL resolvers over a
Mongo-backed book/author/user store).  The resolver logic is translated from
src/unnamed/part_000 (the subscription-enabled variant) and src/index.js
(whose first variant carries the bookCount aggregation in allAuthors); the
two agree on every function modelled here except where noted in doc comments.

The document store is modelled as three in-memory lists plus a fresh-id
counter.  Store writes (Mongoose save) may fail for external reasons
(constraint violation at the storage layer, connectivity); each mutation that
performs a save takes an explicit Boolean oracle saying whether that save
succeeds, mirroring the try/catch wrapping in the source.  A JavaScript
TypeError raised by dereferencing a null findOne result is modelled as the
distinct error value Err.typeError.
-/

/-- Errors surfaced by the resolvers: AuthenticationError, UserInputError
(the validation shape), a jsonwebtoken verification failure, and a JavaScript
TypeError from dereferencing null. -/
inductive Err where
  | auth : String → Err
  | validation : String → Err
  | token : Err
  | typeError : Err
deriving DecidableEq

/-- An Author document: models/author with fields name and born; _id is the
store-assigned identifier. -/
structure Author where
  _id : Nat
  name : String
  born : Option Int
deriving DecidableEq

/-- A Book document: title, published year, genre tags, and the _id of the
owning Author (the ref stored in the author field). -/
structure Book where
  _id : Nat
  title : String
  published : Int
  genres : List String
  author : Nat
deriving DecidableEq

/-- A User document: username and favoriteGenre. -/
structure User where
  _id : Nat
  username : String
  favoriteGenre : String
deriving DecidableEq

/-- The whole document store: the Books, Authors and Users collections,
plus a counter supplying fresh _id values on insert. -/
structure Catalog where
  authors : List Author
  books : List Book
  users : List User
  nextId : Nat
deriving DecidableEq

/-- Author.findById: first stored Author whose _id matches. -/
def findAuthorById (st : Catalog) (i : Nat) : Option Author :=
  st.authors.find? (fun a => a._id == i)

/-- User.findById: first stored User whose _id matches. -/
def findUserById (st : Catalog) (i : Nat) : Option User :=
  st.users.find? (fun u => u._id == i)

/-- JavaScript truthiness of an optional string argument: undefined, null and
the empty string are falsy, every other string is truthy. -/
def truthy : Option String → Bool
  | none => false
  | some s => s != ""

/-- A Book with its author field resolved by populate: the book together
with the Author document it references (none when the reference dangles). -/
structure ResolvedBook where
  book : Book
  author : Option Author
deriving DecidableEq

/-- book.populate over the Authors collection. -/
def populate (st : Catalog) (b : Book) : ResolvedBook :=
  ⟨b, findAuthorById st b.author⟩

/-- allBooks resolver (src/unnamed/part_000 lines 102-161, identical in
src/index.js): a four-way branch on truthiness of the two optional filters.
In the two author branches the source reads author._id straight off the
findOne result, so a missing author is a null dereference: Err.typeError. -/
def allBooks (st : Catalog) (author genre : Option String) :
    Except Err (List ResolvedBook) :=
  if truthy author && truthy genre then
    match st.authors.find? (fun a => a.name == author.getD "") with
    | none => .error .typeError
    | some a =>
      .ok ((st.books.filter
        (fun b => b.genres.contains (genre.getD "") && b.author == a._id)).map
          (populate st))
  else if truthy author then
    match st.authors.find? (fun a => a.name == author.getD "") with
    | none => .error .typeError
    | some a =>
      .ok ((st.books.filter (fun b => b.author == a._id)).map (populate st))
  else if truthy genre then
    .ok ((st.books.filter (fun b => b.genres.contains (genre.getD ""))).map
      (populate st))
  else
    .ok (st.books.map (populate st))

/-- An Author as returned by allAuthors in src/index.js: the stored fields
spread together with the derived bookCount. -/
structure AuthorWithCount where
  _id : Nat
  name : String
  born : Option Int
  bookCount : Nat
deriving DecidableEq

/-- The populate pass of allAuthors: the resolved author name of each stored
Book, in order; none as soon as one author reference dangles (the source then
reads .name off null inside the counting loop: a TypeError). -/
def resolveAllNames (st : Catalog) : List Book → Option (List String)
  | [] => some []
  | b :: bs =>
    match findAuthorById st b.author with
    | none => none
    | some a => (resolveAllNames st bs).map (fun ns => a.name :: ns)

/-- allAuthors resolver (src/index.js lines 146-174, the variant that carries
the aggregation; the part_000 variant returns the raw Author list without a
bookCount field).  Every Book is populated, then each Author is paired with
the count of Books whose populated author name equals the name of the Author. -/
def allAuthors (st : Catalog) : Except Err (List AuthorWithCount) :=
  match resolveAllNames st st.books with
  | none => .error .typeError
  | some names =>
    .ok (st.authors.map (fun a =>
      ⟨a._id, a.name, a.born, names.countP (fun n => n == a.name)⟩))

/-- The argument object of the addBook mutation.  The GraphQL schema makes
title, author and published non-null, so published is a plain Int here; the
published === null branch of the source presence check can therefore never
fire in the model. -/
structure AddBookArgs where
  title : String
  author : String
  published : Int
  genres : List String
deriving DecidableEq

deriving instance DecidableEq for Except

/-- Outcome of one addBook call: the returned Book or the raised error, the
store after the call, and the list of BOOK_ADDED payloads published by the
call (pubsub.publish modelled as appending to this list). -/
structure AddBookOut where
  result : Except Err Book
  state : Catalog
  events : List Book
deriving DecidableEq

/-- The tail of addBook after the author has been found or created: build the
Book referencing the author _id and save it; a failed save is wrapped as a
UserInputError (message from the store) with no write; a successful save
appends the Book and publishes one BOOK_ADDED event carrying it. -/
def insertBookStep (st : Catalog) (args : AddBookArgs) (authorId : Nat)
    (bookSaveOk : Bool) : AddBookOut :=
  let book : Book :=
    ⟨st.nextId, args.title, args.published, args.genres, authorId⟩
  if bookSaveOk then
    ⟨.ok book,
     { st with books := st.books ++ [book], nextId := st.nextId + 1 },
     [book]⟩
  else
    ⟨.error (.validation "book save failed"), st, []⟩

/-- addBook mutation (src/unnamed/part_000 lines 175-228; src/index.js is
identical except for the pubsub publish).  Checks run in source order:
authentication, field presence, title length, title uniqueness, then the
author is looked up and auto-created when absent (name length checked, save
failure wrapped as UserInputError), then the Book is built and saved.
authorSaveOk and bookSaveOk are the oracles for the two store writes. -/
def addBook (st : Catalog) (currentUser : Option User) (args : AddBookArgs)
    (authorSaveOk bookSaveOk : Bool) : AddBookOut :=
  if currentUser.isNone then
    ⟨.error (.auth "not authenticated"), st, []⟩
  else if args.title == "" || args.author == "" then
    ⟨.error (.validation
      "The title, author and published fields must all have valid values"),
     st, []⟩
  else if args.title.length < 2 then
    ⟨.error (.validation
      "The length of the title must be at least 2 characters long"),
     st, []⟩
  else if (st.books.find? (fun b => b.title == args.title)).isSome then
    ⟨.error (.validation "Title must be unique"), st, []⟩
  else
    match st.authors.find? (fun a => a.name == args.author) with
    | some a => insertBookStep st args a._id bookSaveOk
    | none =>
      if args.author.length < 4 then
        ⟨.error (.validation
          "The length of the author name must be at least 4 characters long"),
         st, []⟩
      else if authorSaveOk then
        let newAuthor : Author := ⟨st.nextId, args.author, none⟩
        insertBookStep
          { st with authors := st.authors ++ [newAuthor],
                    nextId := st.nextId + 1 }
          args newAuthor._id bookSaveOk
      else
        ⟨.error (.validation "author save failed"), st, []⟩

/-- editAuthor mutation (src/unnamed/part_000 lines 229-251, identical in
src/index.js).  After the authentication check the source assigns
author.born on the findOne result without a null guard, so a missing name is
a null dereference (Err.typeError) with no write.  On a found author the
born field is set and saved; a failed save is wrapped as a UserInputError
with the store unchanged. -/
def editAuthor (st : Catalog) (currentUser : Option User) (name : String)
    (setBornTo : Int) (saveOk : Bool) : Except Err Author × Catalog :=
  if currentUser.isNone then
    (.error (.auth "not authenticated"), st)
  else
    match st.authors.find? (fun a => a.name == name) with
    | none => (.error .typeError, st)
    | some a =>
      let updated : Author := { a with born := some setBornTo }
      if saveOk then
        (.ok updated,
         { st with authors :=
             st.authors.map (fun x => if x._id == a._id then updated else x) })
      else
        (.error (.validation "author save failed"), st)

/-- createUser mutation (src/unnamed/part_000 lines 252-261): insert a User;
a rejected save (for example the unique-username constraint of the missing
models/user schema) is wrapped as a UserInputError with the store
unchanged. -/
def createUser (st : Catalog) (username favoriteGenre : String)
    (saveOk : Bool) : Except Err User × Catalog :=
  let user : User := ⟨st.nextId, username, favoriteGenre⟩
  if saveOk then
    (.ok user,
     { st with users := st.users ++ [user], nextId := st.nextId + 1 })
  else
    (.error (.validation "user save failed"), st)

/-- The claims signed into a session token: the username and _id of the
logged-in User. -/
structure TokenPayload where
  username : String
  id : Nat
deriving DecidableEq

/-- Modelled from the spec: the external jsonwebtoken signing primitive, a
deterministic signature over the claims with a fixed secret.  A signed token
is opaque; the model keeps the payload and the signing secret so that
verification can compare secrets. -/
structure SignedToken where
  payload : TokenPayload
  secret : String
deriving DecidableEq

def jwtSign (p : TokenPayload) (secret : String) : SignedToken :=
  ⟨p, secret⟩

/-- Modelled from the spec: jwt.verify throws a token error unless the token
was signed with the same secret, in which case it yields the claims. -/
def jwtVerify (t : SignedToken) (secret : String) : Option TokenPayload :=
  if t.secret == secret then some t.payload else none

def JWT_SECRET : String := "NEED_HERE_A_SECRET_KEY"

/-- What login returns in src/unnamed/part_000: the signed token value
together with the favoriteGenre of the logged-in user (the plain index.js
variant returns the value alone). -/
structure LoginResult where
  value : SignedToken
  favoriteGenre : String
deriving DecidableEq

/-- login mutation (src/unnamed/part_000 lines 262-279): look the User up by
username; if absent or the password is not the fixed shared secret, raise
UserInputError with message wrong credentials; otherwise sign a token over
the username and _id and return it with the favorite genre. -/
def login (st : Catalog) (username password : String) :
    Except Err LoginResult :=
  match st.users.find? (fun u => u.username == username) with
  | none => .error (.validation "wrong credentials")
  | some user =>
    if password != "secret" then
      .error (.validation "wrong credentials")
    else
      .ok ⟨jwtSign ⟨user.username, user._id⟩ JWT_SECRET, user.favoriteGenre⟩

/-- JavaScript toLowerCase on an ASCII header: each character lowercased (a
character-list rendering of String.toLower, which the kernel cannot
evaluate). -/
def lowerString (s : String) : String := ⟨s.data.map Char.toLower⟩

/-- An authorization header split at character index 7 the way the source
consumes it: the scheme part (auth.substring(0,7), checked lowercased
against the bearer marker) and the token part (auth.substring(7), handed to
jwt.verify). -/
structure AuthHeader where
  scheme : String
  tok : SignedToken
deriving DecidableEq

/-- Request context construction (src/unnamed/part_000 lines 314-325).  No
header, or a header whose lowercased start is not the bearer marker, yields
an anonymous context; a bearer header is verified (failure is a thrown token
error) and the embedded id looked up, a vanished user giving currentUser
undefined. -/
def context (st : Catalog) (auth : Option AuthHeader) :
    Except Err (Option User) :=
  match auth with
  | none => .ok none
  | some h =>
    if lowerString h.scheme == "bearer " then
      match jwtVerify h.tok JWT_SECRET with
      | none => .error .token
      | some payload => .ok (findUserById st payload.id)
    else
      .ok none

/-- The global uniqueness invariant on Book titles. -/
def uniqueTitles (st : Catalog) : Prop :=
  st.books.Pairwise (fun b1 b2 => b1.title ≠ b2.title)

instance (st : Catalog) : Decidable (uniqueTitles st) := by
  unfold uniqueTitles; infer_instance

/-- The resolved author name of one Book: the name on the Author document the
author field references, when it resolves. -/
def resolvedName (st : Catalog) (b : Book) : Option String :=
  (findAuthorById st b.author).map (fun a => a.name)

/-- The number of stored Books whose resolved author name equals n. -/
def booksWithAuthorName (st : Catalog) (n : String) : Nat :=
  st.books.countP (fun b => resolvedName st b == some n)

/-- A small populated store used to instantiate the theorems: one user, one
author, one book owned by that author. -/
def sampleUser : User := ⟨1, "alice", "tech"⟩

def sampleAuthor : Author := ⟨2, "Robert Martin", none⟩

def sampleBook : Book := ⟨3, "Clean Code", 2008, ["tech"], 2⟩

def sampleCatalog : Catalog := ⟨[sampleAuthor], [sampleBook], [sampleUser], 4⟩

/-- A store holding one user and nothing else. -/
def emptyCatalog : Catalog := ⟨[], [], [sampleUser], 2⟩

/-- C10: An empty-string author or genre argument is falsy in the branch
conditions of allBooks, so the call behaves exactly as if that filter were
absent; the empty string is never matched against stored names or tags. -/
theorem allBooks_empty_string_as_absent (st : Catalog) (a g : Option String) :
    allBooks st (some "") g = allBooks st none g ∧
    allBooks st a (some "") = allBooks st a none := by
  constructor
  · simp [allBooks, truthy]
  · cases a with
    | none => simp [allBooks, truthy]
    | some s =>
      by_cases hs : s = "" <;> simp [allBooks, truthy, hs]

/-- C2 counterexample: on the store with no authors, allBooks with the author
filter Ghost dereferences the null findOne result and yields a TypeError, not
the empty sequence the claim promises. -/
theorem allBooks_missing_author_cex :
    allBooks emptyCatalog (some "Ghost") none = .error .typeError ∧
    allBooks emptyCatalog (some "Ghost") none ≠ .ok [] := by
  constructor
  · rfl
  · intro h
    cases h

/-- C2 amended: whenever a non-empty author filter names no stored Author,
allBooks reads the _id field off the null findOne result and fails with a
TypeError (with or without a genre filter); it never returns a sequence. -/
theorem allBooks_missing_author_type_error (st : Catalog) (name : String)
    (g : Option String) (hname : name ≠ "")
    (habs : st.authors.find? (fun a => a.name == name) = none) :
    allBooks st (some name) g = .error .typeError := by
  have ht : truthy (some name) = true := by simp [truthy, hname]
  by_cases hg : truthy g = true <;> simp [allBooks, ht, hg, habs]

/-- Instantiation of the C2 amended theorem on the one-user store. -/
theorem allBooks_missing_author_type_error_witness :
    ("Ghost" ≠ "" ∧
      emptyCatalog.authors.find? (fun a => a.name == "Ghost") = none) ∧
    allBooks emptyCatalog (some "Ghost") none = .error .typeError :=
  ⟨⟨by decide, rfl⟩,
    allBooks_missing_author_type_error emptyCatalog "Ghost" none
      (by decide) rfl⟩

/-- C1: editAuthor on a name matching no stored Author assigns born on the
null findOne result: the call crashes with a TypeError instead of returning
the null result that its own comment (and the spec) promise; no write is
performed. -/
theorem editAuthor_missing_author_crash :
    editAuthor emptyCatalog (some sampleUser) "Phantom" 1900 true =
      (.error .typeError, emptyCatalog) := rfl

/-- When the populate pass succeeds, counting matches in the list of resolved
names is counting Books whose resolved author name satisfies the test. -/
theorem resolveAllNames_countP (st : Catalog) (p : String → Bool) :
    ∀ (bs : List Book) (ns : List String), resolveAllNames st bs = some ns →
      ns.countP p = bs.countP (fun b => (resolvedName st b).any p)
  | [], ns, h => by
    simp only [resolveAllNames] at h
    cases h
    rfl
  | b :: bs, ns, h => by
    simp only [resolveAllNames] at h
    cases hfa : findAuthorById st b.author with
    | none => rw [hfa] at h; cases h
    | some a =>
      rw [hfa] at h
      cases hrec : resolveAllNames st bs with
      | none => rw [hrec] at h; cases h
      | some ns' =>
        rw [hrec] at h
        simp only [Option.map_some] at h
        cases h
        have ih := resolveAllNames_countP st p bs ns' hrec
        simp [List.countP_cons, ih, resolvedName, hfa]

/-- C3: every entry returned by allAuthors carries a bookCount equal to the
number of stored Books whose resolved author name equals the name on that entry
(name-based matching).  The hypothesis is that the call returns (the populate
pass found an Author document for every Book). -/
theorem allAuthors_bookCount_correct (st : Catalog)
    (l : List AuthorWithCount) (h : allAuthors st = .ok l) :
    ∀ e ∈ l, e.bookCount = booksWithAuthorName st e.name := by
  unfold allAuthors at h
  cases hres : resolveAllNames st st.books with
  | none => rw [hres] at h; cases h
  | some names =>
    rw [hres] at h
    injection h with h
    subst h
    intro e he
    rw [List.mem_map] at he
    obtain ⟨a, _, rfl⟩ := he
    have hc := resolveAllNames_countP st (fun n => n == a.name) st.books
      names hres
    simp only [booksWithAuthorName]
    rw [hc]
    apply List.countP_congr
    intro b _
    cases resolvedName st b <;> simp

/-- Instantiation of the C3 theorem on the sample store: the single author
has bookCount one, matching the one stored book that resolves to his name. -/
theorem allAuthors_bookCount_correct_witness :
    allAuthors sampleCatalog = .ok [⟨2, "Robert Martin", none, 1⟩] ∧
    ∀ e ∈ [(⟨2, "Robert Martin", none, 1⟩ : AuthorWithCount)],
      e.bookCount = booksWithAuthorName sampleCatalog e.name :=
  ⟨rfl, allAuthors_bookCount_correct sampleCatalog _ rfl⟩

/-- C9: editAuthor by an authenticated caller on a name that matches a stored
Author (with the write accepted by the store) returns that Author with born
set to setBornTo and the name and _id untouched; the Books and Users
collections are unchanged, the Authors collection keeps its length, every
Author with a different _id is still stored unchanged, and nothing appears
in the store that was not already there apart from the updated record. -/
theorem editAuthor_updates_born_only (st : Catalog) (u : User)
    (name : String) (y : Int) (a : Author)
    (hfind : st.authors.find? (fun x => x.name == name) = some a) :
    (editAuthor st (some u) name y true).1 = .ok { a with born := some y } ∧
    (editAuthor st (some u) name y true).2.books = st.books ∧
    (editAuthor st (some u) name y true).2.users = st.users ∧
    (editAuthor st (some u) name y true).2.authors.length =
      st.authors.length ∧
    { a with born := some y } ∈ (editAuthor st (some u) name y true).2.authors ∧
    (∀ x ∈ st.authors, x._id ≠ a._id →
      x ∈ (editAuthor st (some u) name y true).2.authors) ∧
    (∀ x ∈ (editAuthor st (some u) name y true).2.authors,
      x ∈ st.authors ∨ x = { a with born := some y }) := by
  have hmem : a ∈ st.authors := List.mem_of_find?_eq_some hfind
  have h1 : editAuthor st (some u) name y true =
      (.ok { a with born := some y },
       { st with authors :=
           (st.authors.map (fun x =>
             if x._id == a._id then { a with born := some y } else x)) }) := by
    simp [editAuthor, hfind]
  simp only [h1]
  refine ⟨trivial, trivial, trivial, List.length_map _ _, ?_, ?_, ?_⟩
  · rw [List.mem_map]
    exact ⟨a, hmem, by simp⟩
  · intro x hx hne
    rw [List.mem_map]
    refine ⟨x, hx, ?_⟩
    have : (x._id == a._id) = false := by simp [hne]
    simp [this]
  · intro x hx
    rw [List.mem_map] at hx
    obtain ⟨z, hz, hzx⟩ := hx
    by_cases hid : (z._id == a._id) = true
    · right
      rw [if_pos hid] at hzx
      exact hzx.symm
    · left
      rw [if_neg hid] at hzx
      exact hzx ▸ hz

/-- Instantiation of the C9 theorem on the sample store. -/
theorem editAuthor_updates_born_only_witness :
    sampleCatalog.authors.find? (fun x => x.name == "Robert Martin") =
      some sampleAuthor ∧
    (editAuthor sampleCatalog (some sampleUser) "Robert Martin" 1952 true).1 =
      .ok { sampleAuthor with born := some 1952 } :=
  ⟨rfl,
    (editAuthor_updates_born_only sampleCatalog sampleUser "Robert Martin"
      1952 sampleAuthor rfl).1⟩

/-- C6: the BOOK_ADDED events published by one addBook call are exactly one
event carrying the created Book when the call returns it, and none when the
call raises any error (authentication, validation, or a wrapped persistence
failure). -/
theorem addBook_publishes_iff_success (st : Catalog) (cu : Option User)
    (args : AddBookArgs) (o1 o2 : Bool) :
    (addBook st cu args o1 o2).events =
      ((addBook st cu args o1 o2).result.toOption).toList := by
  by_cases h1 : cu.isNone = true <;>
  by_cases h2 : (args.title == "" || args.author == "") = true <;>
  by_cases h3 : args.title.length < 2 <;>
  by_cases h4 :
    (st.books.find? (fun b => b.title == args.title)).isSome = true <;>
  by_cases h5 : args.author.length < 4 <;>
  cases hfa : st.authors.find? (fun a => a.name == args.author) <;>
  cases o1 <;> cases o2 <;>
  simp [addBook, insertBookStep, h1, h2, h3, h4, h5, hfa, Except.toOption]

/-- A successful Book insert appended to a collection free of the new title
keeps titles pairwise distinct; a rejected insert changes nothing. -/
theorem insertBookStep_unique (st : Catalog) (args : AddBookArgs)
    (aid : Nat) (ok : Bool) (huniq : uniqueTitles st)
    (habs : ∀ b ∈ st.books, ¬ b.title = args.title) :
    uniqueTitles (insertBookStep st args aid ok).state := by
  cases ok
  · exact huniq
  · show List.Pairwise _ (st.books ++
      [⟨st.nextId, args.title, args.published, args.genres, aid⟩])
    rw [List.pairwise_append]
    refine ⟨huniq, List.pairwise_singleton _ _, ?_⟩
    intro x hx y hy
    simp only [List.mem_singleton] at hy
    subst hy
    exact habs x hx

/-- C4: on a store whose Book titles are pairwise distinct, an authenticated
addBook call whose title is already taken always raises a UserInputError
(one of the validation checks fires, the uniqueness check at the latest) and
leaves the store untouched; every addBook call, succeeding or failing,
preserves pairwise-distinct titles; and neither editAuthor nor createUser
ever touches the Books collection, so sequential execution of every
operation preserves global title uniqueness. -/
theorem addBook_title_uniqueness_invariant (st : Catalog) (cu : Option User)
    (args : AddBookArgs) (o1 o2 : Bool) (huniq : uniqueTitles st) :
    ((cu.isSome ∧ ∃ b ∈ st.books, b.title = args.title) →
      ∃ msg, (addBook st cu args o1 o2).result = .error (.validation msg) ∧
        (addBook st cu args o1 o2).state = st) ∧
    uniqueTitles (addBook st cu args o1 o2).state ∧
    (∀ cu2 n y so, ((editAuthor st cu2 n y so).2).books = st.books) ∧
    (∀ un fg so, ((createUser st un fg so).2).books = st.books) := by
  refine ⟨?_, ?_, ?_, ?_⟩
  · rintro ⟨hcu, b, hb, htitle⟩
    have h1 : cu.isNone = false := by
      cases cu
      · simp at hcu
      · rfl
    have h4 : (st.books.find? (fun x => x.title == args.title)).isSome =
        true := List.find?_isSome.mpr ⟨b, hb, by simp [htitle]⟩
    by_cases h2 : (args.title == "" || args.author == "") = true
    · exact ⟨"The title, author and published fields must all have valid values",
        by simp [addBook, h1, h2], by simp [addBook, h1, h2]⟩
    · by_cases h3 : args.title.length < 2
      · exact ⟨"The length of the title must be at least 2 characters long",
          by simp [addBook, h1, h2, h3], by simp [addBook, h1, h2, h3]⟩
      · exact ⟨"Title must be unique", by simp [addBook, h1, h2, h3, h4],
          by simp [addBook, h1, h2, h3, h4]⟩
  · by_cases h1 : cu.isNone = true
    · simpa [addBook, h1] using huniq
    · by_cases h2 : (args.title == "" || args.author == "") = true
      · simpa [addBook, h1, h2] using huniq
      · by_cases h3 : args.title.length < 2
        · simpa [addBook, h1, h2, h3] using huniq
        · by_cases h4 : (st.books.find?
              (fun x => x.title == args.title)).isSome = true
          · simpa [addBook, h1, h2, h3, h4] using huniq
          · have habs : ∀ b ∈ st.books, ¬ b.title = args.title := by
              intro b hb hEq
              exact h4 (List.find?_isSome.mpr ⟨b, hb, by simp [hEq]⟩)
            cases hfa : st.authors.find? (fun a => a.name == args.author) with
            | some a =>
              have := insertBookStep_unique st args a._id o2 huniq habs
              simpa [addBook, h1, h2, h3, h4, hfa] using this
            | none =>
              by_cases h5 : args.author.length < 4
              · simpa [addBook, h1, h2, h3, h4, hfa, h5] using huniq
              · cases o1 with
                | false =>
                  simpa [addBook, h1, h2, h3, h4, hfa, h5] using huniq
                | true =>
                  have := insertBookStep_unique
                    { st with
                        authors :=
                          st.authors ++ [⟨st.nextId, args.author, none⟩],
                        nextId := st.nextId + 1 }
                    args st.nextId o2 huniq habs
                  simpa [addBook, h1, h2, h3, h4, hfa, h5] using this
  · intro cu2 n y so
    by_cases hc : cu2.isNone = true
    · simp [editAuthor, hc]
    · cases hfa : st.authors.find? (fun a => a.name == n) <;>
        cases so <;> simp [editAuthor, hc, hfa]
  · intro un fg so
    cases so <;> simp [createUser]

/-- Instantiation of the C4 theorem on the sample store, where the one
stored title is Clean Code and a second addBook with that title is rejected
with the store unchanged. -/
theorem addBook_title_uniqueness_invariant_witness :
    uniqueTitles sampleCatalog ∧
    (((some sampleUser : Option User).isSome ∧
        ∃ b ∈ sampleCatalog.books, b.title = "Clean Code") →
      ∃ msg,
        (addBook sampleCatalog (some sampleUser)
          ⟨"Clean Code", "Robert Martin", 2008, ["tech"]⟩ true true).result =
            .error (.validation msg) ∧
        (addBook sampleCatalog (some sampleUser)
          ⟨"Clean Code", "Robert Martin", 2008, ["tech"]⟩ true true).state =
            sampleCatalog) :=
  ⟨by decide,
    (addBook_title_uniqueness_invariant sampleCatalog (some sampleUser)
      ⟨"Clean Code", "Robert Martin", 2008, ["tech"]⟩ true true
      (by decide)).1⟩

/-- C5 counterexample: on the one-user store, with the author save accepted
and the book save rejected, addBook raises a UserInputError wrapping the
persistence failure, yet the Author record the call auto-created is left in
the store: the call is not write-free. -/
theorem addBook_failed_call_leaves_author_cex :
    (addBook emptyCatalog (some sampleUser)
      ⟨"Clean Code", "Robert Martin", 2008, ["tech"]⟩ true false).result =
        .error (.validation "book save failed") ∧
    (⟨2, "Robert Martin", none⟩ : Author) ∈
      (addBook emptyCatalog (some sampleUser)
        ⟨"Clean Code", "Robert Martin", 2008, ["tech"]⟩ true false).state.authors ∧
    (addBook emptyCatalog (some sampleUser)
      ⟨"Clean Code", "Robert Martin", 2008, ["tech"]⟩ true false).state ≠
        emptyCatalog := by
  refine ⟨rfl, ?_, ?_⟩
  · decide
  · decide

/-- C5 amended: an addBook call that raises an error never leaves a Book
behind and never touches Users; the store is either exactly as before the
call or, when the book write fails after the call auto-created the missing
Author, extended by exactly that one Author record. -/
theorem addBook_error_partial_state (st : Catalog) (cu : Option User)
    (args : AddBookArgs) (o1 o2 : Bool) (e : Err)
    (herr : (addBook st cu args o1 o2).result = .error e) :
    (addBook st cu args o1 o2).state.books = st.books ∧
    (addBook st cu args o1 o2).state.users = st.users ∧
    ((addBook st cu args o1 o2).state = st ∨
      (addBook st cu args o1 o2).state.authors =
        st.authors ++ [⟨st.nextId, args.author, none⟩]) := by
  by_cases h1 : cu.isNone = true <;>
  by_cases h2 : (args.title == "" || args.author == "") = true <;>
  by_cases h3 : args.title.length < 2 <;>
  by_cases h4 :
    (st.books.find? (fun b => b.title == args.title)).isSome = true <;>
  by_cases h5 : args.author.length < 4 <;>
  cases hfa : st.authors.find? (fun a => a.name == args.author) <;>
  cases o1 <;> cases o2 <;>
  simp [addBook, insertBookStep, h1, h2, h3, h4, h5, hfa] at herr ⊢

/-- Instantiation of the C5 amended theorem at the book-save-failure input:
the leaked record is the auto-created Author alone. -/
theorem addBook_error_partial_state_witness :
    (addBook emptyCatalog (some sampleUser)
      ⟨"Clean Code", "Robert Martin", 2008, ["tech"]⟩ true false).result =
        .error (.validation "book save failed") ∧
    (addBook emptyCatalog (some sampleUser)
      ⟨"Clean Code", "Robert Martin", 2008, ["tech"]⟩ true false).state.books =
        emptyCatalog.books :=
  ⟨rfl,
    (addBook_error_partial_state emptyCatalog (some sampleUser)
      ⟨"Clean Code", "Robert Martin", 2008, ["tech"]⟩ true false
      (.validation "book save failed") rfl).1⟩

/-- C7: login raises UserInputError wrong credentials exactly when no stored
User carries the given username or the password is not the fixed shared
secret; and on a found user with the right password it returns the token
signed over the username and _id together with the favorite genre. -/
theorem login_wrong_credentials_iff (st : Catalog) (un pw : String) :
    (login st un pw = .error (.validation "wrong credentials") ↔
      (∀ u ∈ st.users, u.username ≠ un) ∨ pw ≠ "secret") ∧
    (∀ u, st.users.find? (fun x => x.username == un) = some u →
      pw = "secret" →
      login st un pw =
        .ok ⟨jwtSign ⟨u.username, u._id⟩ JWT_SECRET, u.favoriteGenre⟩) := by
  constructor
  · cases hfind : st.users.find? (fun x => x.username == un) with
    | none =>
      have habs : ∀ u ∈ st.users, u.username ≠ un := by
        intro u hu
        have := List.find?_eq_none.mp hfind u hu
        simpa using this
      simp only [login, hfind]
      simp
      exact Or.inl habs
    | some u =>
      have hu : u ∈ st.users := List.mem_of_find?_eq_some hfind
      have hun : u.username = un := by
        have := List.find?_some hfind
        simpa using this
      by_cases hpw : pw = "secret"
      · simp [login, hfind, hpw]
        exact ⟨u, hu, hun⟩
      · simp [login, hfind, hpw]
  · intro u hfind hpw
    simp [login, hfind, hpw]

/-- Instantiation of the C7 theorem: alice logging in with the fixed secret
gets her signed token and favorite genre. -/
theorem login_wrong_credentials_iff_witness :
    sampleCatalog.users.find? (fun x => x.username == "alice") =
      some sampleUser ∧
    login sampleCatalog "alice" "secret" =
      .ok ⟨jwtSign ⟨"alice", 1⟩ JWT_SECRET, "tech"⟩ :=
  ⟨rfl,
    (login_wrong_credentials_iff sampleCatalog "alice" "secret").2
      sampleUser rfl rfl⟩

/-- C8: a token issued by a successful login, presented in a Bearer
authorization header, is verified by the context step and resolves a stored
User with the same identifier the token was issued for. -/
theorem login_context_roundtrip (st : Catalog) (un : String) (u : User)
    (hfind : st.users.find? (fun x => x.username == un) = some u) :
    ∃ r v, login st un "secret" = .ok r ∧
      context st (some ⟨"Bearer ", r.value⟩) = .ok (some v) ∧
      v._id = u._id := by
  have hmem : u ∈ st.users := List.mem_of_find?_eq_some hfind
  have hlogin : login st un "secret" =
      .ok ⟨jwtSign ⟨u.username, u._id⟩ JWT_SECRET, u.favoriteGenre⟩ := by
    simp [login, hfind]
  have hsome : (st.users.find? (fun x => x._id == u._id)).isSome = true :=
    List.find?_isSome.mpr ⟨u, hmem, by simp⟩
  obtain ⟨v, hv⟩ := Option.isSome_iff_exists.mp hsome
  have hvid : v._id = u._id := by
    have := List.find?_some hv
    simpa using this
  refine ⟨_, v, hlogin, ?_, hvid⟩
  have hlow : lowerString "Bearer " = "bearer " := rfl
  simp [context, jwtVerify, jwtSign, findUserById, hv, hlow]

/-- Instantiation of the C8 theorem: the token alice receives resolves back
to a user with her identifier. -/
theorem login_context_roundtrip_witness :
    sampleCatalog.users.find? (fun x => x.username == "alice") =
      some sampleUser ∧
    ∃ r v, login sampleCatalog "alice" "secret" = .ok r ∧
      context sampleCatalog (some ⟨"Bearer ", r.value⟩) = .ok (some v) ∧
      v._id = sampleUser._id :=
  ⟨rfl, login_context_roundtrip sampleCatalog "alice" sampleUser rfl⟩
